import Mathlib

/-!
Formal model of two storefront view components:
the cart drawer (assets/cart-drawer.js) and the header menu (the HeaderMenu
custom element).  DOM elements are identified by natural numbers; the live
DOM measurements and query results that an event handler reads are packaged
into environment records, and every write the handler performs (attribute
writes, CSS custom property writes, observer attach/detach, event dispatch)
is recorded as an explicit action.  The state after a handler runs is
obtained by replaying its action list.
-/

/-! ## Header menu: actions, environment, state -/

/-- One observable write or effect performed by a HeaderMenu handler. -/
inductive MenuAction where
  | dispatchHover
  | setOverflowExpanded (v : String)
  | setItemAria (item : Nat) (v : String)
  | setMenuAria (v : String)
  | setActiveItem (o : Option Nat)
  | setSubmenuActive (el : Nat)
  | removeSubmenuActive (el : Nat)
  | disconnectObserver
  | attachObserver (el : Nat)
  | scheduleTimeout
  | setSubmenuHeight (h : Nat)
  | setFullOpenHeaderHeight (h : Nat)
  | setOpacity (v : String)
deriving DecidableEq, Repr

/-- The DOM facts a HeaderMenu handler reads: header presence, the submenu
associated to each menu item (findSubmenu), the overflow panel, element
heights, and the measurements used by getOverflowListLinksHeight and
setFullOpenHeaderHeight. -/
structure MenuEnv where
  headerPresent : Bool
  findSubmenu : Nat → Option Nat
  overflowMenu : Option Nat
  offsetHeight : Nat → Nat
  hasOverflowSlot : Bool
  overflowHeightLinksOnly : Nat
  overlapBottomRow : Bool
  headerHeight : Nat
  topRowHeight : Option Nat

/-- The mutable state owned or written by HeaderMenu: the active item,
aria-expanded attributes, the data flags, the three published CSS custom
properties and the mutation-observer slot. -/
structure MenuState where
  activeItem : Option Nat
  itemAria : Nat → Option String
  menuAria : Option String
  overflowExpanded : Option String
  submenuActive : Nat → Bool
  submenuHeight : Nat
  fullOpenHeight : Nat
  opacity : Option String
  observer : Option Nat

/-- Initial state: nothing active, no attributes written, no observer. -/
def initMenuState : MenuState :=
  { activeItem := none
    itemAria := fun _ => none
    menuAria := none
    overflowExpanded := none
    submenuActive := fun _ => false
    submenuHeight := 0
    fullOpenHeight := 0
    opacity := none
    observer := none }

/-- Apply one action to the state. -/
def applyMenuAction (s : MenuState) : MenuAction → MenuState
  | .dispatchHover => s
  | .setOverflowExpanded v => { s with overflowExpanded := some v }
  | .setItemAria i v => { s with itemAria := Function.update s.itemAria i (some v) }
  | .setMenuAria v => { s with menuAria := some v }
  | .setActiveItem o => { s with activeItem := o }
  | .setSubmenuActive e => { s with submenuActive := Function.update s.submenuActive e true }
  | .removeSubmenuActive e => { s with submenuActive := Function.update s.submenuActive e false }
  | .disconnectObserver => { s with observer := none }
  | .attachObserver e => { s with observer := some e }
  | .scheduleTimeout => s
  | .setSubmenuHeight h => { s with submenuHeight := h }
  | .setFullOpenHeaderHeight h => { s with fullOpenHeight := h }
  | .setOpacity v => { s with opacity := some v }

/-- Replay a list of actions over a state. -/
def runActions (l : List MenuAction) (s : MenuState) : MenuState :=
  l.foldl applyMenuAction s

/-! ## Header menu: activate -/

/-- Inputs of the activate handler resolved from the event: whether the
target is an Element, the menu item findMenuItem resolves it to, and
whether the target sits in the default slot. -/
structure ActivateEvent where
  targetIsElement : Bool
  item : Option Nat
  isDefaultSlot : Bool

/-- getOverflowListLinksHeight: if the overflow panel has a slot with
assigned links, measure the panel with the links' nested submenus hidden;
otherwise fall back to the panel's plain height (0 when absent). -/
def getOverflowListLinksHeight (env : MenuEnv) : Nat :=
  if env.overflowMenu.isSome && env.hasOverflowSlot then env.overflowHeightLinksOnly
  else (env.overflowMenu.map env.offsetHeight).getD 0

/-- The submenu activate resolves for an item: findSubmenu's result, or the
overflow panel when the item is overflow-slotted and has no submenu. -/
def submenuOf (env : MenuEnv) (ev : ActivateEvent) (item : Nat) : Option Nat :=
  let sub := env.findSubmenu item
  if sub.isNone && !ev.isDefaultSlot then env.overflowMenu else sub

/-- The final height activate publishes as the submenu height. -/
def activateFinalHeight (env : MenuEnv) (ev : ActivateEvent) (item : Nat) : Nat :=
  let sub := env.findSubmenu item
  let submenu := submenuOf env ev item
  let h0 := (submenu.map env.offsetHeight).getD 0
  let h1 :=
    if !ev.isDefaultSlot then
      if sub.isSome then
        max ((env.overflowMenu.map env.offsetHeight).getD 0) (getOverflowListLinksHeight env)
      else getOverflowListLinksHeight env
    else h0
  if submenu.isNone then 0 else h1

/-- setFullOpenHeaderHeight's computed value: the visible header height
(top row only in the overlap situation) plus the submenu height, or 0 when
there is nothing to open. -/
def fullOpenHeaderHeight (env : MenuEnv) (submenuHeight : Nat) : Nat :=
  let headerVisibleHeight :=
    if env.overlapBottomRow && decide (0 < env.headerHeight) then env.topRowHeight.getD 0
    else env.headerHeight
  if submenuHeight = 0 then 0 else submenuHeight + headerVisibleHeight

/-- Actions of setFullOpenHeaderHeight (no-op when the header is absent). -/
def setFullOpenActions (env : MenuEnv) (h : Nat) : List MenuAction :=
  if env.headerPresent then [MenuAction.setFullOpenHeaderHeight (fullOpenHeaderHeight env h)]
  else []

/-- The observer block activate runs when a submenu was resolved: mark it
active, disconnect any previous observer, attach a new one, schedule the
500ms auto-disconnect. -/
def watcherBlock (submenu : Option Nat) : List MenuAction :=
  match submenu with
  | some el =>
      [MenuAction.setSubmenuActive el, MenuAction.disconnectObserver,
       MenuAction.attachObserver el, MenuAction.scheduleTimeout]
  | none => []

/-- The body of activate after its guards pass, in source order. -/
def activateCore (env : MenuEnv) (ev : ActivateEvent) (s : MenuState) (item : Nat) :
    List MenuAction :=
  [MenuAction.setOverflowExpanded (toString (!ev.isDefaultSlot))] ++
  (match s.activeItem with
   | some prev => [MenuAction.setItemAria prev "false"]
   | none => []) ++
  [MenuAction.setActiveItem (some item), MenuAction.setMenuAria "true",
   MenuAction.setItemAria item "true"] ++
  watcherBlock (submenuOf env ev item) ++
  [MenuAction.setSubmenuHeight (activateFinalHeight env ev item)] ++
  setFullOpenActions env (activateFinalHeight env ev item) ++
  [MenuAction.setOpacity "1"]

/-- The full action trace of the activate handler: the hover event is
dispatched first, then the guards run, then the core. -/
def activateActions (env : MenuEnv) (ev : ActivateEvent) (s : MenuState) : List MenuAction :=
  MenuAction.dispatchHover ::
  (if !ev.targetIsElement || !env.headerPresent then []
   else
     match ev.item with
     | none => []
     | some item => if s.activeItem = some item then [] else activateCore env ev s item)

/-- The state after the activate handler. -/
def activate (env : MenuEnv) (ev : ActivateEvent) (s : MenuState) : MenuState :=
  runActions (activateActions env ev s) s

/-! ## Header menu: deactivate -/

/-- Inputs the deactivate handler reads from the event and document. -/
structure DeactivateEvent where
  targetIsElement : Bool
  relatedIsNode : Bool
  isBlur : Bool
  activeElementInMenu : Bool
  relatedInMenu : Bool
  relatedParentInOverflowSlot : Bool

/-- Live hover facts read by the private deactivate guard. -/
structure HoverEnv where
  overflowListHovered : Bool
  overflowMenuHovered : Bool

/-- Actions of the private deactivate (the version taking the item to
deactivate, defaulting to the active one). -/
def deactivateInnerActions (env : MenuEnv) (hov : HoverEnv) (s : MenuState)
    (item : Option Nat) : List MenuAction :=
  match item with
  | none => []
  | some it =>
    if s.activeItem = some it then
      if hov.overflowListHovered || (env.overflowMenu.isSome && hov.overflowMenuHovered) then []
      else
        (if env.headerPresent then [MenuAction.setSubmenuHeight 0] else []) ++
        setFullOpenActions env 0 ++
        [MenuAction.setOpacity "0", MenuAction.setOverflowExpanded "false",
         MenuAction.setActiveItem none, MenuAction.setMenuAria "false",
         MenuAction.setItemAria it "false"] ++
        (match env.findSubmenu it with
         | some sub => [MenuAction.removeSubmenuActive sub]
         | none => [])
    else []

/-- Guard: focus/pointer is moving within the active item's submenu. -/
def movingWithinMenu (env : MenuEnv) (ev : DeactivateEvent) (s : MenuState) : Bool :=
  ev.relatedIsNode && (s.activeItem.bind env.findSubmenu).isSome && ev.activeElementInMenu

/-- Guard: a blur whose related target is inside the active item's submenu. -/
def movingToSubmenu (env : MenuEnv) (ev : DeactivateEvent) (s : MenuState) : Bool :=
  ev.relatedIsNode && ev.isBlur && (s.activeItem.bind env.findSubmenu).isSome && ev.relatedInMenu

/-- Guard: the related target moved into the overflow slot. -/
def movingToOverflowMenu (ev : DeactivateEvent) : Bool :=
  ev.relatedIsNode && ev.relatedParentInOverflowSlot

/-- Actions of the public deactivate handler. -/
def deactivateActions (env : MenuEnv) (ev : DeactivateEvent) (hov : HoverEnv)
    (s : MenuState) : List MenuAction :=
  if !ev.targetIsElement then []
  else if movingWithinMenu env ev s || movingToOverflowMenu ev || movingToSubmenu env ev s then []
  else deactivateInnerActions env hov s s.activeItem

/-- The state after the public deactivate handler. -/
def deactivate (env : MenuEnv) (ev : DeactivateEvent) (hov : HoverEnv) (s : MenuState) :
    MenuState :=
  runActions (deactivateActions env ev hov s) s

/-! ## Header menu: reachable states -/

/-- An input the HeaderMenu state machine can process: an activation, a
deactivation, the overflow panel pointerleave (which calls the private
deactivate directly), the 500ms timer firing, and a mutation-observer
measurement of the watched submenu's height. -/
inductive MenuInput where
  | act (env : MenuEnv) (ev : ActivateEvent)
  | deact (env : MenuEnv) (ev : DeactivateEvent) (hov : HoverEnv)
  | leave (env : MenuEnv) (hov : HoverEnv)
  | timerFire
  | mutation (env : MenuEnv) (h : Nat)

/-- One step of the HeaderMenu state machine. -/
def menuStep (inp : MenuInput) (s : MenuState) : MenuState :=
  match inp with
  | .act env ev => activate env ev s
  | .deact env ev hov => deactivate env ev hov s
  | .leave env hov => runActions (deactivateInnerActions env hov s s.activeItem) s
  | .timerFire => { s with observer := none }
  | .mutation env h =>
      match s.observer with
      | some _ =>
          if 0 < h then
            { s with
              submenuHeight := if env.headerPresent then h else s.submenuHeight
              observer := none }
          else s
      | none => s

/-- States reachable from the initial state by handler steps. -/
inductive MenuReachable : MenuState → Prop
  | init : MenuReachable initMenuState
  | step (s : MenuState) (inp : MenuInput) : MenuReachable s → MenuReachable (menuStep inp s)

/-! ## Header menu: watcher lifetime (timed model)

The mutation watcher's lifetime: an activation at time t attaches a watcher
and schedules a cleanup timer for t + 500; the timer callback disconnects
whatever observer is current; a nonzero mutation measurement also
disconnects.  Timers due at or before the current instant fire before any
handler at that instant runs. -/

/-- Timed watcher state: the attach time of the current observer (if any),
the pending cleanup-timer fire times, and the current time. -/
structure WatcherState where
  observer : Option Nat
  timers : List Nat
  now : Nat
deriving DecidableEq, Repr

/-- A timed input: a watcher-attaching activation, a mutation measurement,
or a plain passage-of-time observation. -/
inductive WInput where
  | activateW
  | mutationW (h : Nat)
  | tick
deriving DecidableEq, Repr

/-- Fire every cleanup timer due at or before time t: each one disconnects
the current observer. -/
def fireDue (t : Nat) (s : WatcherState) : WatcherState :=
  if s.timers.any (fun f => f ≤ t) then
    { s with observer := none, timers := s.timers.filter (fun f => t < f) }
  else s

/-- Process one timestamped input (time is clamped to be nondecreasing). -/
def wStep (s : WatcherState) (inp : Nat × WInput) : WatcherState :=
  let t := max s.now inp.1
  let s1 := { fireDue t s with now := t }
  match inp.2 with
  | .activateW => { s1 with observer := some t, timers := (t + 500) :: s1.timers }
  | .mutationW h =>
      if s1.observer.isSome = true ∧ 0 < h then { s1 with observer := none } else s1
  | .tick => s1

/-- Run a timed trace from the initial watcher state. -/
def wExec (trace : List (Nat × WInput)) : WatcherState :=
  trace.foldl wStep { observer := none, timers := [], now := 0 }

/-- Track only the observer slot across a menu action. -/
def obsStep (o : Option Nat) : MenuAction → Option Nat
  | .disconnectObserver => none
  | .attachObserver e => some e
  | _ => o

/-- True when every observer attach in the action list happens with the
observer slot empty (any prior watcher already disconnected). -/
def attachesOnlyWhenClean (o : Option Nat) : List MenuAction → Bool
  | [] => true
  | a :: rest =>
      (match a with
       | MenuAction.attachObserver _ => o.isNone
       | _ => true) && attachesOnlyWhenClean (obsStep o a) rest

/-! ## Cart drawer: sticky summary -/

/-- The sticky threshold (#summaryThreshold = 0.5). -/
def summaryThreshold : ℚ := 1/2

/-- updateStickyState: the value written to the cart-summary-sticky
attribute (none = no write, when the dialog ref is absent). -/
def updateStickyState (dialogPresent contentPresent summaryPresent : Bool)
    (drawerHeight summaryHeight : ℚ) : Option String :=
  if !dialogPresent then none
  else if !contentPresent || !summaryPresent then some "false"
  else if summaryHeight / drawerHeight > summaryThreshold then some "false"
  else some "true"

/-! ## Cart drawer: history synchronization -/

/-- Browser history as seen by the drawer: the stack of entries (head =
current entry, each entry records its cartDrawerOpen flag), whether the
popstate listener is attached, and counters of pushState / back calls. -/
structure DrawerHistoryState where
  hist : List Bool
  listener : Bool
  pushes : Nat
  backs : Nat
deriving DecidableEq, Repr

/-- history.state?.cartDrawerOpen of the current entry. -/
def currentTagged (s : DrawerHistoryState) : Bool :=
  s.hist.headD false

/-- handleHistoryOpen: on a mobile viewport, push a tagged entry unless the
current entry is already tagged, then attach the popstate listener. -/
def handleHistoryOpen (isMobile : Bool) (s : DrawerHistoryState) : DrawerHistoryState :=
  if !isMobile then s
  else
    let s1 :=
      if !currentTagged s then { s with hist := true :: s.hist, pushes := s.pushes + 1 }
      else s
    { s1 with listener := true }

/-- handleHistoryClose: abort the popstate listener; if the current entry
is tagged, navigate back once (consuming that entry). -/
def handleHistoryClose (s : DrawerHistoryState) : DrawerHistoryState :=
  let s1 := { s with listener := false }
  if currentTagged s1 then { s1 with hist := s1.hist.tail, backs := s1.backs + 1 }
  else s1

/-! ## Cart drawer: popstate close -/

/-- One write performed by the popstate handler. -/
inductive DrawerAct where
  | setClosingAnim (v : String)
  | closeDialog
  | removeClosingAnim
deriving DecidableEq, Repr

/-- Dialog state relevant to the popstate handler. -/
structure DialogState where
  isOpen : Bool
  closingAnim : Option String
deriving DecidableEq, Repr

/-- handlePopState's action trace: when the dialog ref exists and is open,
suppress the closing animation, close, restore. -/
def handlePopStateActions (dialogPresent dialogIsOpen : Bool) : List DrawerAct :=
  if dialogPresent && dialogIsOpen then
    [DrawerAct.setClosingAnim "none", DrawerAct.closeDialog, DrawerAct.removeClosingAnim]
  else []

/-- Apply one popstate-handler action. -/
def applyDrawerAct (s : DialogState) : DrawerAct → DialogState
  | .setClosingAnim v => { s with closingAnim := some v }
  | .closeDialog => { s with isOpen := false }
  | .removeClosingAnim => { s with closingAnim := none }

/-- The state after the popstate handler. -/
def handlePopState (dialogPresent : Bool) (s : DialogState) : DialogState :=
  (handlePopStateActions dialogPresent s.isOpen).foldl applyDrawerAct s

/-! ## Sample data used by witnesses and counterexamples -/

/-- A sample menu DOM: items 1 and 2 with submenus 11 and 12, an overflow
panel 5 with a slot, a header of height 80. -/
def sampleEnv : MenuEnv :=
  { headerPresent := true
    findSubmenu := fun i => if i = 1 then some 11 else if i = 2 then some 12 else none
    overflowMenu := some 5
    offsetHeight := fun e => if e = 11 then 40 else if e = 12 then 60 else if e = 5 then 100 else 0
    hasOverflowSlot := true
    overflowHeightLinksOnly := 50
    overlapBottomRow := false
    headerHeight := 80
    topRowHeight := some 30 }

/-- An activation event targeting a default-slot item i. -/
def evItem (i : Nat) : ActivateEvent :=
  { targetIsElement := true, item := some i, isDefaultSlot := true }

/-- An activation event targeting an overflow-slotted item i. -/
def evOverflowItem (i : Nat) : ActivateEvent :=
  { targetIsElement := true, item := some i, isDefaultSlot := false }

/-- A menu DOM whose overflow-slotted items have no dedicated submenus: the
overflow panel (element 5) renders at height 100, but measures 50 with the
listed links' nested submenus hidden. -/
def overflowOnlyEnv : MenuEnv :=
  { headerPresent := true
    findSubmenu := fun _ => none
    overflowMenu := some 5
    offsetHeight := fun e => if e = 5 then 100 else 0
    hasOverflowSlot := true
    overflowHeightLinksOnly := 50
    overlapBottomRow := false
    headerHeight := 80
    topRowHeight := none }

/-- A deactivation event whose three movement guards are all false. -/
def sampleDeactEvent : DeactivateEvent :=
  { targetIsElement := true, relatedIsNode := true, isBlur := false
    activeElementInMenu := false, relatedInMenu := false, relatedParentInOverflowSlot := false }

/-- Hover facts: the overflow list is hovered. -/
def sampleHover : HoverEnv := { overflowListHovered := true, overflowMenuHovered := false }

/-- A history with a single untagged entry and no listener. -/
def sampleHistory : DrawerHistoryState :=
  { hist := [false], listener := false, pushes := 0, backs := 0 }

/-! ## Helper lemmas: replaying action lists -/

theorem runActions_append (l1 l2 : List MenuAction) (s : MenuState) :
    runActions (l1 ++ l2) s = runActions l2 (runActions l1 s) := by
  simp [runActions]

theorem runActions_nil (s : MenuState) : runActions [] s = s := rfl

theorem runActions_hover (s : MenuState) : runActions [MenuAction.dispatchHover] s = s := rfl

/-! ## Helper lemmas: activate -/

theorem activateActions_guard (env : MenuEnv) (ev : ActivateEvent) (s : MenuState)
    (h : (!ev.targetIsElement || !env.headerPresent) = true) :
    activateActions env ev s = [MenuAction.dispatchHover] := by
  unfold activateActions
  simp [h]

theorem activateActions_noItem (env : MenuEnv) (ev : ActivateEvent) (s : MenuState)
    (h : ev.item = none) :
    activateActions env ev s = [MenuAction.dispatchHover] := by
  unfold activateActions
  by_cases hg : (!ev.targetIsElement || !env.headerPresent) = true <;> simp [hg, h]

theorem activateActions_already (env : MenuEnv) (ev : ActivateEvent) (s : MenuState) (item : Nat)
    (hi : ev.item = some item) (ha : s.activeItem = some item) :
    activateActions env ev s = [MenuAction.dispatchHover] := by
  unfold activateActions
  by_cases hg : (!ev.targetIsElement || !env.headerPresent) = true <;> simp [hg, hi, ha]

theorem activate_noop (env : MenuEnv) (ev : ActivateEvent) (s : MenuState) (item : Nat)
    (hi : ev.item = some item) (ha : s.activeItem = some item) :
    activate env ev s = s ∧ activateActions env ev s = [MenuAction.dispatchHover] := by
  have hacts := activateActions_already env ev s item hi ha
  exact ⟨by rw [activate, hacts, runActions_hover], hacts⟩

theorem activateActions_core (env : MenuEnv) (ev : ActivateEvent) (s : MenuState) (item : Nat)
    (ht : ev.targetIsElement = true) (hh : env.headerPresent = true)
    (hi : ev.item = some item) (hne : ¬ s.activeItem = some item) :
    activateActions env ev s = MenuAction.dispatchHover :: activateCore env ev s item := by
  unfold activateActions
  simp [ht, hh, hi, hne]

theorem activate_state_eq (env : MenuEnv) (ev : ActivateEvent) (s : MenuState) (item : Nat)
    (ht : ev.targetIsElement = true) (hh : env.headerPresent = true)
    (hi : ev.item = some item) (hne : ¬ s.activeItem = some item) :
    activate env ev s =
      { activeItem := some item
        itemAria :=
          Function.update
            (match s.activeItem with
             | some prev => Function.update s.itemAria prev (some "false")
             | none => s.itemAria) item (some "true")
        menuAria := some "true"
        overflowExpanded := some (toString (!ev.isDefaultSlot))
        submenuActive :=
          match submenuOf env ev item with
          | some el => Function.update s.submenuActive el true
          | none => s.submenuActive
        submenuHeight := activateFinalHeight env ev item
        fullOpenHeight := fullOpenHeaderHeight env (activateFinalHeight env ev item)
        opacity := some "1"
        observer :=
          match submenuOf env ev item with
          | some el => some el
          | none => s.observer } := by
  rw [activate, activateActions_core env ev s item ht hh hi hne]
  unfold activateCore
  rcases hprev : s.activeItem with _ | prev <;>
    rcases hsub : submenuOf env ev item with _ | el <;>
      simp [runActions, applyMenuAction, watcherBlock, setFullOpenActions, hh, hprev, hsub]

/-! ## Helper lemmas: deactivate -/

theorem deactivateInner_cases (env : MenuEnv) (hov : HoverEnv) (s : MenuState)
    (item : Option Nat) :
    runActions (deactivateInnerActions env hov s item) s = s ∨
    ∃ it, item = some it ∧ s.activeItem = some it
      ∧ (runActions (deactivateInnerActions env hov s item) s).activeItem = none
      ∧ ∀ j, (runActions (deactivateInnerActions env hov s item) s).itemAria j =
          if j = it then some "false" else s.itemAria j := by
  rcases item with _ | it
  · left; rfl
  by_cases ha : s.activeItem = some it
  · by_cases hg :
      (hov.overflowListHovered || (env.overflowMenu.isSome && hov.overflowMenuHovered)) = true
    · left
      unfold deactivateInnerActions
      simp [ha, hg, runActions_nil]
    · right
      refine ⟨it, rfl, ha, ?_⟩
      unfold deactivateInnerActions
      rcases hsub : env.findSubmenu it with _ | sub <;>
        by_cases hH : env.headerPresent <;>
          simp [ha, hg, hsub, hH, runActions, applyMenuAction, setFullOpenActions,
            Function.update_apply]
  · left
    unfold deactivateInnerActions
    simp [ha, runActions_nil]

theorem deactivate_cases (env : MenuEnv) (ev : DeactivateEvent) (hov : HoverEnv)
    (s : MenuState) :
    deactivate env ev hov s = s ∨
    deactivate env ev hov s = runActions (deactivateInnerActions env hov s s.activeItem) s := by
  unfold deactivate deactivateActions
  cases hT : ev.targetIsElement
  · left; simp [runActions_nil]
  · by_cases hg :
      (movingWithinMenu env ev s || movingToOverflowMenu ev || movingToSubmenu env ev s) = true
    · left; simp [hg, runActions_nil]
    · right; simp [hg]

/-! ## The single-active-item invariant -/

/-- An item whose aria-expanded attribute reads "true" is the active item. -/
def ariaInv (s : MenuState) : Prop :=
  ∀ i, s.itemAria i = some "true" → s.activeItem = some i

theorem activate_preserves_ariaInv (env : MenuEnv) (ev : ActivateEvent) (s : MenuState)
    (h : ariaInv s) : ariaInv (activate env ev s) := by
  cases hT : ev.targetIsElement with
  | false =>
      rw [activate, activateActions_guard env ev s (by simp [hT]), runActions_hover]
      exact h
  | true =>
  cases hH : env.headerPresent with
  | false =>
      rw [activate, activateActions_guard env ev s (by simp [hH]), runActions_hover]
      exact h
  | true =>
  rcases hi : ev.item with _ | item
  · rw [activate, activateActions_noItem env ev s hi, runActions_hover]
    exact h
  by_cases ha : s.activeItem = some item
  · rw [(activate_noop env ev s item hi ha).1]
    exact h
  · intro j hj
    rw [activate_state_eq env ev s item hT hH hi ha] at hj ⊢
    simp only [Function.update_apply] at hj
    by_cases hji : j = item
    · simp [hji]
    · simp only [if_neg hji] at hj
      exfalso
      rcases hprev : s.activeItem with _ | prev
      · rw [hprev] at hj
        have := h j hj
        rw [hprev] at this
        exact absurd this (by simp)
      · rw [hprev] at hj
        simp only [Function.update_apply] at hj
        by_cases hjp : j = prev
        · rw [if_pos hjp] at hj
          exact absurd hj (by simp)
        · rw [if_neg hjp] at hj
          have := h j hj
          rw [hprev] at this
          exact hjp (by injection this with h2; exact h2.symm)

theorem inner_preserves_ariaInv (env : MenuEnv) (hov : HoverEnv) (s : MenuState)
    (item : Option Nat) (h : ariaInv s) :
    ariaInv (runActions (deactivateInnerActions env hov s item) s) := by
  rcases deactivateInner_cases env hov s item with heq | ⟨it, _, ha, hact, haria⟩
  · rw [heq]; exact h
  · intro j hj
    rw [haria j] at hj
    by_cases hji : j = it
    · rw [if_pos hji] at hj
      exact absurd hj (by simp)
    · rw [if_neg hji] at hj
      have := h j hj
      rw [ha] at this
      exact absurd (by injection this with h2; exact h2.symm) hji

theorem deactivate_preserves_ariaInv (env : MenuEnv) (ev : DeactivateEvent) (hov : HoverEnv)
    (s : MenuState) (h : ariaInv s) : ariaInv (deactivate env ev hov s) := by
  rcases deactivate_cases env ev hov s with heq | heq
  · rw [heq]; exact h
  · rw [heq]; exact inner_preserves_ariaInv env hov s s.activeItem h

theorem reachable_ariaInv (s : MenuState) (h : MenuReachable s) : ariaInv s := by
  induction h with
  | init =>
      intro i hi
      exact absurd hi (by simp [initMenuState])
  | step s inp _ ih =>
      cases inp with
      | act env ev => exact activate_preserves_ariaInv env ev s ih
      | deact env ev hov => exact deactivate_preserves_ariaInv env ev hov s ih
      | leave env hov => exact inner_preserves_ariaInv env hov s s.activeItem ih
      | timerFire => intro i hi; exact ih i hi
      | mutation env hgt =>
          intro i hi
          rcases hobs : s.observer with _ | el <;>
            simp only [menuStep, hobs] at hi ⊢
          · exact ih i hi
          · by_cases hpos : 0 < hgt
            · rw [if_pos hpos] at hi ⊢
              exact ih i hi
            · rw [if_neg hpos] at hi ⊢
              exact ih i hi

/-! ## Helper lemmas: watcher lifetime -/

/-- The timed watcher invariant: an attached observer's cleanup timer is
still pending and its deadline has not passed. -/
def wInv (s : WatcherState) : Prop :=
  ∀ t0, s.observer = some t0 → s.now ≤ t0 + 500 ∧ (t0 + 500) ∈ s.timers

theorem fireDue_char (t : Nat) (s : WatcherState) (h : wInv s) (t0 : Nat)
    (hobs : (fireDue t s).observer = some t0) :
    t ≤ t0 + 500 ∧ (t0 + 500) ∈ (fireDue t s).timers := by
  unfold fireDue at hobs ⊢
  by_cases hany : s.timers.any (fun f => f ≤ t) = true
  · rw [if_pos hany] at hobs
    exact absurd hobs (by simp)
  · rw [if_neg hany] at hobs ⊢
    have hmem := (h t0 hobs).2
    have : ¬ (t0 + 500 ≤ t) := by
      intro hle
      exact hany (List.any_eq_true.mpr ⟨t0 + 500, hmem, by simpa using hle⟩)
    exact ⟨by omega, hmem⟩

theorem wStep_wInv (s : WatcherState) (inp : Nat × WInput) (h : wInv s) :
    wInv (wStep s inp) := by
  intro t0 hobs
  unfold wStep at hobs ⊢
  rcases inp with ⟨tin, i⟩
  cases i with
  | activateW =>
      simp only at hobs ⊢
      have : t0 = max s.now tin := by
        simpa using hobs.symm
      subst this
      exact ⟨by omega, by simp⟩
  | mutationW hgt =>
      simp only at hobs ⊢
      by_cases hc : ((fireDue (max s.now tin) s).observer.isSome = true ∧ 0 < hgt)
      · rw [if_pos hc] at hobs
        exact absurd hobs (by simp)
      · rw [if_neg hc] at hobs ⊢
        exact fireDue_char (max s.now tin) s h t0 hobs
  | tick =>
      simp only at hobs ⊢
      have hchar := fireDue_char (max s.now tin) s h t0 hobs
      exact ⟨hchar.1, hchar.2⟩

theorem foldl_wInv (trace : List (Nat × WInput)) (s : WatcherState) (h : wInv s) :
    wInv (trace.foldl wStep s) := by
  induction trace generalizing s with
  | nil => exact h
  | cons a l ih => exact ih (wStep s a) (wStep_wInv s a h)

theorem wExec_wInv (trace : List (Nat × WInput)) : wInv (wExec trace) := by
  unfold wExec
  exact foldl_wInv trace _ (by intro t0 hobs; exact absurd hobs (by simp))

theorem attaches_clean (env : MenuEnv) (ev : ActivateEvent) (s : MenuState) :
    attachesOnlyWhenClean s.observer (activateActions env ev s) = true := by
  unfold activateActions
  by_cases hg : (!ev.targetIsElement || !env.headerPresent) = true
  · simp [hg, attachesOnlyWhenClean, obsStep]
  · rcases hi : ev.item with _ | item
    · simp [hg, hi, attachesOnlyWhenClean, obsStep]
    · by_cases ha : s.activeItem = some item
      · simp [hg, hi, ha, attachesOnlyWhenClean, obsStep]
      · simp only [hg, hi, ha, Bool.false_eq_true, if_false, if_neg ha]
        unfold activateCore
        rcases hprev : s.activeItem with _ | prev <;>
          rcases hsub : submenuOf env ev item with _ | el <;>
            by_cases hH : env.headerPresent <;>
              simp [watcherBlock, setFullOpenActions, hsub, hH, hprev,
                attachesOnlyWhenClean, obsStep]

theorem activate_submenuHeight (env : MenuEnv) (ev : ActivateEvent) (s : MenuState) (item : Nat)
    (ht : ev.targetIsElement = true) (hh : env.headerPresent = true)
    (hi : ev.item = some item) (hne : ¬ s.activeItem = some item) :
    (activate env ev s).submenuHeight = activateFinalHeight env ev item := by
  rw [activate_state_eq env ev s item ht hh hi hne]

theorem dispatchHover_not_in_core (env : MenuEnv) (ev : ActivateEvent) (s : MenuState)
    (item : Nat) : MenuAction.dispatchHover ∉ activateCore env ev s item := by
  unfold activateCore
  rcases hw : s.activeItem with _ | p <;>
    rcases hsub : submenuOf env ev item with _ | el <;>
      by_cases hH : env.headerPresent = true <;>
        simp [watcherBlock, setFullOpenActions, hsub, hH]

/-! ## Claims -/

/-- Claim C1: activating menu item A and then a different menu item B leaves
A's aria-expanded flag "false" and B's "true"; and in every reachable state
at most one menu item has its expanded flag set to "true". -/
theorem menu_single_active_c1 (env1 env2 : MenuEnv) (ev1 ev2 : ActivateEvent)
    (s : MenuState) (a b : Nat)
    (h1 : ev1.item = some a) (h2 : ev2.item = some b) (hab : a ≠ b)
    (ht1 : ev1.targetIsElement = true) (hh1 : env1.headerPresent = true)
    (ht2 : ev2.targetIsElement = true) (hh2 : env2.headerPresent = true) :
    ((activate env2 ev2 (activate env1 ev1 s)).itemAria a = some "false"
      ∧ (activate env2 ev2 (activate env1 ev1 s)).itemAria b = some "true")
    ∧ (∀ t, MenuReachable t → ∀ i j,
        t.itemAria i = some "true" → t.itemAria j = some "true" → i = j) := by
  constructor
  · have hact1 : (activate env1 ev1 s).activeItem = some a := by
      by_cases ha : s.activeItem = some a
      · rw [(activate_noop env1 ev1 s a h1 ha).1]; exact ha
      · rw [activate_state_eq env1 ev1 s a ht1 hh1 h1 ha]
    have hne2 : ¬ (activate env1 ev1 s).activeItem = some b := by
      rw [hact1]; simp [hab]
    rw [activate_state_eq env2 ev2 (activate env1 ev1 s) b ht2 hh2 h2 hne2]
    constructor
    · simp [hact1, Function.update_apply, hab]
    · simp [Function.update_apply]
  · intro t hreach i j hi hj
    have hinv := reachable_ariaInv t hreach
    exact Option.some.inj ((hinv i hi).symm.trans (hinv j hj))

/-- Claim C1 witness: a concrete two-activation run from the initial state. -/
theorem menu_single_active_c1_witness :
    ((activate sampleEnv (evItem 2) (activate sampleEnv (evItem 1) initMenuState)).itemAria 1
        = some "false"
      ∧ (activate sampleEnv (evItem 2) (activate sampleEnv (evItem 1) initMenuState)).itemAria 2
        = some "true")
    ∧ (∀ t, MenuReachable t → ∀ i j,
        t.itemAria i = some "true" → t.itemAria j = some "true" → i = j) :=
  menu_single_active_c1 sampleEnv sampleEnv (evItem 1) (evItem 2) initMenuState 1 2
    rfl rfl (by decide) rfl rfl rfl rfl

/-- Claim C2: for an open with the dialog present and a positive drawer
height, the sticky attribute is written "true" exactly when both regions
exist and summaryHeight / drawerHeight is at most the 0.5 threshold; it is
written "false" when the measured proportion exceeds the threshold, and
whenever either region is missing. -/
theorem cart_sticky_c2 (c s : Bool) (dh sh : ℚ) (_hdh : 0 < dh) :
    (updateStickyState true c s dh sh = some "true" ↔
      c = true ∧ s = true ∧ sh / dh ≤ summaryThreshold)
    ∧ (c = true → s = true → summaryThreshold < sh / dh →
        updateStickyState true c s dh sh = some "false")
    ∧ ((c = false ∨ s = false) → updateStickyState true c s dh sh = some "false") := by
  refine ⟨⟨?_, ?_⟩, ?_, ?_⟩
  · intro h
    cases c with
    | false => simp [updateStickyState] at h
    | true =>
      cases s with
      | false => simp [updateStickyState] at h
      | true =>
        refine ⟨rfl, rfl, ?_⟩
        by_cases hr : sh / dh > summaryThreshold
        · simp [updateStickyState, hr] at h
        · exact le_of_not_lt hr
  · rintro ⟨hc, hs, hle⟩
    subst hc; subst hs
    have hnr : ¬ (sh / dh > summaryThreshold) := not_lt.mpr hle
    simp [updateStickyState, hnr]
  · intro hc hs hr
    subst hc; subst hs
    simp [updateStickyState, hr]
  · rintro (hc | hs)
    · subst hc; simp [updateStickyState]
    · subst hs; cases c <;> simp [updateStickyState]

/-- Claim C2 witness: drawer height 2, summary height 1 (measured
proportion exactly the threshold). -/
theorem cart_sticky_c2_witness :
    (updateStickyState true true true 2 1 = some "true" ↔
      true = true ∧ true = true ∧ (1 : ℚ) / 2 ≤ summaryThreshold)
    ∧ (true = true → true = true → summaryThreshold < (1 : ℚ) / 2 →
        updateStickyState true true true 2 1 = some "false")
    ∧ ((true = false ∨ true = false) → updateStickyState true true true 2 1 = some "false") :=
  cart_sticky_c2 true true 2 1 (by norm_num)

/-- Claim C3: on a narrow viewport an open pushes exactly one tagged history
entry (none when the current entry is already tagged); an explicit close
performs exactly one back-navigation when the current entry is tagged (none
when untagged); and opening and closing twice restores the original
history stack. -/
theorem cart_history_c3 (s : DrawerHistoryState) (h0 : currentTagged s = false) :
    ((handleHistoryOpen true s).pushes = s.pushes + 1
      ∧ (handleHistoryOpen true s).hist = true :: s.hist)
    ∧ (∀ s2, currentTagged s2 = true →
        (handleHistoryOpen true s2).pushes = s2.pushes
          ∧ (handleHistoryOpen true s2).hist = s2.hist)
    ∧ (∀ s3, currentTagged s3 = true →
        (handleHistoryClose s3).backs = s3.backs + 1
          ∧ (handleHistoryClose s3).hist = s3.hist.tail)
    ∧ (∀ s4, currentTagged s4 = false →
        (handleHistoryClose s4).backs = s4.backs ∧ (handleHistoryClose s4).hist = s4.hist)
    ∧ (handleHistoryClose (handleHistoryOpen true
        (handleHistoryClose (handleHistoryOpen true s)))).hist = s.hist := by
  refine ⟨?_, ?_, ?_, ?_, ?_⟩
  · constructor <;> simp [handleHistoryOpen, h0]
  · intro s2 h2
    constructor <;> simp [handleHistoryOpen, h2]
  · intro s3 h3
    simp only [currentTagged, List.headD_eq_head?_getD] at h3
    constructor <;> simp [handleHistoryClose, currentTagged, h3]
  · intro s4 h4
    simp only [currentTagged, List.headD_eq_head?_getD] at h4
    constructor <;> simp [handleHistoryClose, currentTagged, h4]
  · have h0' : s.hist.head?.getD false = false := by
      simpa [currentTagged] using h0
    have e1 : handleHistoryOpen true s =
        { hist := true :: s.hist, listener := true, pushes := s.pushes + 1,
          backs := s.backs } := by
      simp [handleHistoryOpen, currentTagged, h0']
    have e2 : handleHistoryClose
        { hist := true :: s.hist, listener := true, pushes := s.pushes + 1,
          backs := s.backs } =
        { hist := s.hist, listener := false, pushes := s.pushes + 1,
          backs := s.backs + 1 } := by
      simp [handleHistoryClose, currentTagged]
    have e3 : handleHistoryOpen true
        { hist := s.hist, listener := false, pushes := s.pushes + 1,
          backs := s.backs + 1 } =
        { hist := true :: s.hist, listener := true, pushes := s.pushes + 1 + 1,
          backs := s.backs + 1 } := by
      simp [handleHistoryOpen, currentTagged, h0']
    have e4 : handleHistoryClose
        { hist := true :: s.hist, listener := true, pushes := s.pushes + 1 + 1,
          backs := s.backs + 1 } =
        { hist := s.hist, listener := false, pushes := s.pushes + 1 + 1,
          backs := s.backs + 1 + 1 } := by
      simp [handleHistoryClose, currentTagged]
    rw [e1, e2, e3, e4]

/-- Claim C3 witness: a history with one untagged entry. -/
theorem cart_history_c3_witness :
    ((handleHistoryOpen true sampleHistory).pushes = sampleHistory.pushes + 1
      ∧ (handleHistoryOpen true sampleHistory).hist = true :: sampleHistory.hist)
    ∧ (∀ s2, currentTagged s2 = true →
        (handleHistoryOpen true s2).pushes = s2.pushes
          ∧ (handleHistoryOpen true s2).hist = s2.hist)
    ∧ (∀ s3, currentTagged s3 = true →
        (handleHistoryClose s3).backs = s3.backs + 1
          ∧ (handleHistoryClose s3).hist = s3.hist.tail)
    ∧ (∀ s4, currentTagged s4 = false →
        (handleHistoryClose s4).backs = s4.backs ∧ (handleHistoryClose s4).hist = s4.hist)
    ∧ (handleHistoryClose (handleHistoryOpen true
        (handleHistoryClose (handleHistoryOpen true sampleHistory)))).hist
        = sampleHistory.hist :=
  cart_history_c3 sampleHistory rfl

/-- Claim C4 (amended): a live watcher's cleanup deadline never passes — at
every point of every timed run, an attached watcher's age is at most 500ms
— and every activation disconnects any prior watcher before attaching its
own, so at most one watcher is ever live.  However (see the counterexample)
a watcher can also be detached early by the stale 500ms timer of a previous
activation, so it does not always run until its own measurement or its own
500ms deadline, whichever comes first. -/
theorem menu_watcher_c4 :
    (∀ trace t0, (wExec trace).observer = some t0 → (wExec trace).now ≤ t0 + 500)
    ∧ (∀ env ev s, attachesOnlyWhenClean s.observer (activateActions env ev s) = true) :=
  ⟨fun trace t0 hobs => (wExec_wInv trace t0 hobs).1,
   fun env ev s => attaches_clean env ev s⟩

/-- Claim C4 witness: a single activation at time 0, observed at time 0. -/
theorem menu_watcher_c4_witness :
    (wExec [(0, WInput.activateW)]).observer = some 0
    ∧ (wExec [(0, WInput.activateW)]).now ≤ 0 + 500
    ∧ attachesOnlyWhenClean initMenuState.observer
        (activateActions sampleEnv (evItem 1) initMenuState) = true :=
  ⟨by decide, menu_watcher_c4.1 [(0, WInput.activateW)] 0 (by decide),
   menu_watcher_c4.2 sampleEnv (evItem 1) initMenuState⟩

/-- Claim C4 counterexample: activations at t=0 and t=300.  The stale 500ms
timer scheduled by the first activation (and never cancelled) fires at
t=500 and detaches the watcher attached at t=300 — only 200ms into its
life and with no nonzero-height measurement — refuting "detaches itself
after either a successful nonzero-height measurement or after 500ms
elapsed, whichever comes first". -/
theorem menu_watcher_c4_counterexample :
    (wExec [(0, WInput.activateW), (300, WInput.activateW)]).observer = some 300
    ∧ (wExec [(0, WInput.activateW), (300, WInput.activateW), (500, WInput.tick)]).observer
        = none
    ∧ (wExec [(0, WInput.activateW), (300, WInput.activateW), (500, WInput.tick)]).now = 500
    ∧ 500 < 300 + 500 := by decide

/-- Claim C5 (amended): on an overflow-slotted activation, the published
height is max(overflow panel height, listed-links height) only when the
item has its own dedicated submenu; when it falls back to the shared
overflow panel the published height is the listed-links height alone, and
it is 0 when the overflow panel is also absent. -/
theorem menu_overflow_height_c5 (env : MenuEnv) (ev : ActivateEvent) (s : MenuState)
    (item : Nat)
    (ht : ev.targetIsElement = true) (hh : env.headerPresent = true)
    (hi : ev.item = some item) (hne : ¬ s.activeItem = some item)
    (hslot : ev.isDefaultSlot = false) :
    ((env.findSubmenu item).isSome = true →
      (activate env ev s).submenuHeight =
        max ((env.overflowMenu.map env.offsetHeight).getD 0) (getOverflowListLinksHeight env))
    ∧ (env.findSubmenu item = none → (env.overflowMenu).isSome = true →
        (activate env ev s).submenuHeight = getOverflowListLinksHeight env)
    ∧ (env.findSubmenu item = none → env.overflowMenu = none →
        (activate env ev s).submenuHeight = 0) := by
  have hsh := activate_submenuHeight env ev s item ht hh hi hne
  refine ⟨?_, ?_, ?_⟩
  · intro hsub
    rw [hsh]
    unfold activateFinalHeight submenuOf
    rcases hfs : env.findSubmenu item with _ | sub
    · rw [hfs] at hsub; simp at hsub
    · simp [hfs, hslot]
  · intro hfs hom
    rw [hsh]
    unfold activateFinalHeight submenuOf
    rcases homv : env.overflowMenu with _ | om
    · rw [homv] at hom; simp at hom
    · simp [hfs, hslot, homv]
  · intro hfs hom
    rw [hsh]
    unfold activateFinalHeight submenuOf
    simp [hfs, hslot, hom]

/-- Claim C5 witness: overflow activation of item 1 (which has submenu 11)
in the sample menu. -/
theorem menu_overflow_height_c5_witness :
    ((sampleEnv.findSubmenu 1).isSome = true →
      (activate sampleEnv (evOverflowItem 1) initMenuState).submenuHeight =
        max ((sampleEnv.overflowMenu.map sampleEnv.offsetHeight).getD 0)
          (getOverflowListLinksHeight sampleEnv))
    ∧ (sampleEnv.findSubmenu 1 = none → (sampleEnv.overflowMenu).isSome = true →
        (activate sampleEnv (evOverflowItem 1) initMenuState).submenuHeight =
          getOverflowListLinksHeight sampleEnv)
    ∧ (sampleEnv.findSubmenu 1 = none → sampleEnv.overflowMenu = none →
        (activate sampleEnv (evOverflowItem 1) initMenuState).submenuHeight = 0) :=
  menu_overflow_height_c5 sampleEnv (evOverflowItem 1) initMenuState 1 rfl rfl rfl
    (by decide) rfl

/-- Claim C5 counterexample: an overflow-slotted item with no dedicated
submenu.  The overflow panel renders at height 100 and its listed links
measure 50, yet the published height is 50, not max 100 50 = 100. -/
theorem menu_overflow_height_c5_counterexample :
    (activate overflowOnlyEnv (evOverflowItem 3) initMenuState).submenuHeight = 50
    ∧ max ((overflowOnlyEnv.overflowMenu.map overflowOnlyEnv.offsetHeight).getD 0)
        (getOverflowListLinksHeight overflowOnlyEnv) = 100
    ∧ (activate overflowOnlyEnv (evOverflowItem 3) initMenuState).submenuHeight ≠
      max ((overflowOnlyEnv.overflowMenu.map overflowOnlyEnv.offsetHeight).getD 0)
        (getOverflowListLinksHeight overflowOnlyEnv) := by decide

/-- Claim C6 (amended): on the transition Active(x) to Active(y) with y
different from x, activate clears x's aria-expanded flag before marking y
active and setting the aria-expanded flags on the menu and y (the action
trace is exactly this ordered list); but it performs no submenu
active-marker removal at all, so x's submenu stays marked active. -/
theorem menu_transition_c6 (env : MenuEnv) (ev : ActivateEvent) (s : MenuState) (x y : Nat)
    (hx : s.activeItem = some x) (hy : ev.item = some y) (hxy : x ≠ y)
    (ht : ev.targetIsElement = true) (hh : env.headerPresent = true) :
    activateActions env ev s =
      [MenuAction.dispatchHover, MenuAction.setOverflowExpanded (toString (!ev.isDefaultSlot)),
       MenuAction.setItemAria x "false", MenuAction.setActiveItem (some y),
       MenuAction.setMenuAria "true", MenuAction.setItemAria y "true"] ++
      watcherBlock (submenuOf env ev y) ++
      [MenuAction.setSubmenuHeight (activateFinalHeight env ev y)] ++
      setFullOpenActions env (activateFinalHeight env ev y) ++
      [MenuAction.setOpacity "1"]
    ∧ (activate env ev s).itemAria x = some "false"
    ∧ (activate env ev s).itemAria y = some "true"
    ∧ (activate env ev s).menuAria = some "true"
    ∧ (activate env ev s).activeItem = some y
    ∧ (∀ e, MenuAction.removeSubmenuActive e ∉ activateActions env ev s) := by
  have hne : ¬ s.activeItem = some y := by rw [hx]; simp [hxy]
  have hacts := activateActions_core env ev s y ht hh hy hne
  have hstate := activate_state_eq env ev s y ht hh hy hne
  refine ⟨?_, ?_, ?_, ?_, ?_, ?_⟩
  · rw [hacts]
    unfold activateCore
    rw [hx]
    simp
  · rw [hstate]
    simp [hx, Function.update_apply, hxy]
  · rw [hstate]
    simp [Function.update_apply]
  · rw [hstate]
  · rw [hstate]
  · intro e
    rw [hacts]
    unfold activateCore
    rcases hsub : submenuOf env ev y with _ | el <;>
      simp [watcherBlock, setFullOpenActions, hh, hsub, hx]

/-- Claim C6 witness: transition from item 1 to item 2 in the sample menu. -/
theorem menu_transition_c6_witness :
    activateActions sampleEnv (evItem 2) (activate sampleEnv (evItem 1) initMenuState) =
      [MenuAction.dispatchHover,
       MenuAction.setOverflowExpanded (toString (!(evItem 2).isDefaultSlot)),
       MenuAction.setItemAria 1 "false", MenuAction.setActiveItem (some 2),
       MenuAction.setMenuAria "true", MenuAction.setItemAria 2 "true"] ++
      watcherBlock (submenuOf sampleEnv (evItem 2) 2) ++
      [MenuAction.setSubmenuHeight (activateFinalHeight sampleEnv (evItem 2) 2)] ++
      setFullOpenActions sampleEnv (activateFinalHeight sampleEnv (evItem 2) 2) ++
      [MenuAction.setOpacity "1"]
    ∧ (activate sampleEnv (evItem 2) (activate sampleEnv (evItem 1) initMenuState)).itemAria 1
        = some "false"
    ∧ (activate sampleEnv (evItem 2) (activate sampleEnv (evItem 1) initMenuState)).itemAria 2
        = some "true"
    ∧ (activate sampleEnv (evItem 2) (activate sampleEnv (evItem 1) initMenuState)).menuAria
        = some "true"
    ∧ (activate sampleEnv (evItem 2) (activate sampleEnv (evItem 1) initMenuState)).activeItem
        = some 2
    ∧ (∀ e, MenuAction.removeSubmenuActive e ∉
        activateActions sampleEnv (evItem 2) (activate sampleEnv (evItem 1) initMenuState)) :=
  menu_transition_c6 sampleEnv (evItem 2) (activate sampleEnv (evItem 1) initMenuState) 1 2
    (by decide) rfl (by decide) rfl rfl

/-- Claim C6 counterexample: after activating item 1 (whose submenu is
element 11) and then item 2, item 1's submenu is still marked active —
activate does not unmark the previous submenu, contradicting the claim
that x's submenu is unmarked before y is marked active. -/
theorem menu_transition_c6_counterexample :
    sampleEnv.findSubmenu 1 = some 11
    ∧ (activate sampleEnv (evItem 1) initMenuState).activeItem = some 1
    ∧ (activate sampleEnv (evItem 1) initMenuState).submenuActive 11 = true
    ∧ (activate sampleEnv (evItem 2) (activate sampleEnv (evItem 1) initMenuState)).activeItem
        = some 2
    ∧ (activate sampleEnv (evItem 2)
        (activate sampleEnv (evItem 1) initMenuState)).submenuActive 11 = true := by decide

/-- Claim C7: activating the already-active item is a no-op — the state is
unchanged and the handler's only action is dispatching the hover event (in
particular no flag writes and no new watcher). -/
theorem menu_idempotent_c7 (env : MenuEnv) (ev : ActivateEvent) (s : MenuState) (item : Nat)
    (hi : ev.item = some item) (ha : s.activeItem = some item) :
    activate env ev s = s ∧ activateActions env ev s = [MenuAction.dispatchHover] :=
  activate_noop env ev s item hi ha

/-- Claim C7 witness: re-activating item 1 right after activating it. -/
theorem menu_idempotent_c7_witness :
    activate sampleEnv (evItem 1) (activate sampleEnv (evItem 1) initMenuState)
      = activate sampleEnv (evItem 1) initMenuState
    ∧ activateActions sampleEnv (evItem 1) (activate sampleEnv (evItem 1) initMenuState)
      = [MenuAction.dispatchHover] :=
  menu_idempotent_c7 sampleEnv (evItem 1) (activate sampleEnv (evItem 1) initMenuState) 1
    rfl (by decide)

/-- Claim C8: a deactivation input is suppressed — the whole state is left
unchanged — when focus/pointer moves within the active item's submenu, on
a blur into that submenu, into the shared overflow submenu, or while the
overflow trigger's listed items or the overflow panel are hovered. -/
theorem menu_suppress_c8 (env : MenuEnv) (ev : DeactivateEvent) (hov : HoverEnv)
    (s : MenuState)
    (h : movingWithinMenu env ev s = true ∨ movingToOverflowMenu ev = true
      ∨ movingToSubmenu env ev s = true ∨ hov.overflowListHovered = true
      ∨ (env.overflowMenu.isSome && hov.overflowMenuHovered) = true) :
    deactivate env ev hov s = s := by
  unfold deactivate deactivateActions
  cases hT : ev.targetIsElement
  · simp [runActions_nil]
  · by_cases hg : (movingWithinMenu env ev s || movingToOverflowMenu ev
        || movingToSubmenu env ev s) = true
    · simp [hg, runActions_nil]
    · have hhov : (hov.overflowListHovered
          || (env.overflowMenu.isSome && hov.overflowMenuHovered)) = true := by
        rcases h with h | h | h | h | h
        · exact absurd (by simp [h]) hg
        · exact absurd (by simp [h]) hg
        · exact absurd (by simp [h]) hg
        · simp [h]
        · simp [h]
      simp only [hg, Bool.false_eq_true, if_false, Bool.not_true]
      unfold deactivateInnerActions
      rcases ha : s.activeItem with _ | it
      · simp [runActions_nil]
      · simp [ha, hhov, runActions_nil]

/-- Claim C8 witness: a deactivation while the overflow list is hovered
leaves the state with item 1 active unchanged. -/
theorem menu_suppress_c8_witness :
    deactivate sampleEnv sampleDeactEvent sampleHover
      (activate sampleEnv (evItem 1) initMenuState)
      = activate sampleEnv (evItem 1) initMenuState :=
  menu_suppress_c8 sampleEnv sampleDeactEvent sampleHover
    (activate sampleEnv (evItem 1) initMenuState)
    (Or.inr (Or.inr (Or.inr (Or.inl rfl))))

/-- Claim C9: a back/forward navigation while the dialog is open suppresses
the closing animation, closes the dialog, then restores the animation: the
handler's trace is exactly suppress-close-restore, the dialog ends closed
with the animation property removed, and at the moment of closing the
animation property reads "none". -/
theorem cart_popstate_c9 (dp : Bool) (s : DialogState) (hdp : dp = true)
    (ho : s.isOpen = true) :
    handlePopStateActions dp s.isOpen =
      [DrawerAct.setClosingAnim "none", DrawerAct.closeDialog, DrawerAct.removeClosingAnim]
    ∧ (handlePopState dp s).isOpen = false
    ∧ (handlePopState dp s).closingAnim = none
    ∧ (applyDrawerAct s (DrawerAct.setClosingAnim "none")).closingAnim = some "none" := by
  subst hdp
  refine ⟨by simp [handlePopStateActions, ho], ?_, ?_, rfl⟩
  · simp [handlePopState, handlePopStateActions, ho, applyDrawerAct]
  · simp [handlePopState, handlePopStateActions, ho, applyDrawerAct]

/-- Claim C9 witness: an open dialog with no animation override. -/
theorem cart_popstate_c9_witness :
    handlePopStateActions true (DialogState.mk true none).isOpen =
      [DrawerAct.setClosingAnim "none", DrawerAct.closeDialog, DrawerAct.removeClosingAnim]
    ∧ (handlePopState true (DialogState.mk true none)).isOpen = false
    ∧ (handlePopState true (DialogState.mk true none)).closingAnim = none
    ∧ (applyDrawerAct (DialogState.mk true none)
        (DrawerAct.setClosingAnim "none")).closingAnim = some "none" :=
  cart_popstate_c9 true (DialogState.mk true none) rfl rfl

/-- Claim C10: on every input, activate dispatches the menu-hover event
first and exactly once — also when the activation is otherwise a no-op
(target not an element or not a menu item, header absent, or item already
active). -/
theorem menu_hover_dispatch_c10 (env : MenuEnv) (ev : ActivateEvent) (s : MenuState) :
    (activateActions env ev s).head? = some MenuAction.dispatchHover
    ∧ (activateActions env ev s).count MenuAction.dispatchHover = 1 := by
  constructor
  · rfl
  · by_cases hg : (!ev.targetIsElement || !env.headerPresent) = true
    · rw [activateActions_guard env ev s hg]
      rfl
    · rcases hi : ev.item with _ | item
      · rw [activateActions_noItem env ev s hi]
        rfl
      · by_cases ha : s.activeItem = some item
        · rw [activateActions_already env ev s item hi ha]
          rfl
        · cases hT : ev.targetIsElement with
          | false => exact absurd (by simp [hT]) hg
          | true =>
            cases hH : env.headerPresent with
            | false => exact absurd (by simp [hH]) hg
            | true =>
              rw [activateActions_core env ev s item hT hH hi ha,
                List.count_cons_self,
                List.count_eq_zero.mpr (dispatchHover_not_in_core env ev s item)]
